import Mathlib

/-!
Verification of the aapt2 multi-APK generation pipeline
(`tools/aapt2/optimize/MultiApkGenerator.cpp`).

The pipeline is embedded shallowly: the C++ member functions become pure
Lean functions over an explicit `RunState` (diagnostics sink, written
archives, and the loaded base APK).  External collaborators that live in
other translation units (the version collapser, the table splitter, the
archive writer, the artifact naming helpers, filesystem utilities) are
modelled as opaque function parameters gathered in an `Externals` record,
exactly as wide as the contracts the pipeline uses.
-/

namespace MultiApk

/-- Severity of a diagnostic message (`IDiagnostics::Error/Warn/Note`). -/
inductive Severity : Type where
  | error
  | warn
  | note
deriving DecidableEq, Repr

/-- One diagnostic message pushed to the shared diagnostics sink.
Source-location prefixes are dropped; only severity and text are kept. -/
structure DiagMessage : Type where
  sev : Severity
  msg : String
deriving DecidableEq, Repr

/-- Package type of the build (`IAaptContext::PackageType`). -/
inductive PackageType : Type where
  | app
  | sharedLib
  | staticLib
deriving DecidableEq, Repr

/-- The base build context (`IAaptContext`).  Collaborator objects that the
pipeline only forwards (symbol table, name mangler, diagnostics sink) are
modelled as opaque identifiers. -/
structure IAaptContext : Type where
  package_type : PackageType
  external_symbols : Nat
  diagnostics : Nat
  compilation_package : String
  package_id : Nat
  name_mangler : Nat
  verbose : Bool
  min_sdk_version : Int
deriving DecidableEq, Repr

/-- Context wrapper that allows the min Android SDK value to be overridden
(`ContextWrapper`, MultiApkGenerator.cpp lines 69-115).  The C++ subclass
holds a pointer to the wrapped context plus one private field; here it is a
record of the wrapped context value and that field. -/
structure ContextWrapper : Type where
  context : IAaptContext
  min_sdk : Int
deriving DecidableEq, Repr

/-- Constructor: `min_sdk_` is initialised from the wrapped context. -/
def ContextWrapper.fromContext (c : IAaptContext) : ContextWrapper :=
  ⟨c, c.min_sdk_version⟩

def ContextWrapper.GetPackageType (w : ContextWrapper) : PackageType :=
  w.context.package_type

def ContextWrapper.GetExternalSymbols (w : ContextWrapper) : Nat :=
  w.context.external_symbols

def ContextWrapper.GetDiagnostics (w : ContextWrapper) : Nat :=
  w.context.diagnostics

def ContextWrapper.GetCompilationPackage (w : ContextWrapper) : String :=
  w.context.compilation_package

def ContextWrapper.GetPackageId (w : ContextWrapper) : Nat :=
  w.context.package_id

def ContextWrapper.GetNameMangler (w : ContextWrapper) : Nat :=
  w.context.name_mangler

def ContextWrapper.IsVerbose (w : ContextWrapper) : Bool :=
  w.context.verbose

def ContextWrapper.GetMinSdkVersion (w : ContextWrapper) : Int :=
  w.min_sdk

def ContextWrapper.SetMinSdkVersion (w : ContextWrapper) (m : Int) : ContextWrapper :=
  { w with min_sdk := m }

/-- SDK group payload (`configuration::AndroidSdk`).
Modelled from the spec: the configuration-parser header is not part of the
sources under study; §3 describes the payload as an optional
minimum-version integer, carried opaquely otherwise. -/
structure AndroidSdk : Type where
  min_sdk_version : Option Int
deriving DecidableEq, Repr

/-- A configuration qualifier entry (`ConfigDescription`).
Modelled from the spec: only the density value and an opaque tag are
needed by this pipeline (§4.3 steps 2-3). -/
structure ConfigDescription : Type where
  density : Nat
  tag : String
deriving DecidableEq, Repr

/-- One configured artifact (`configuration::Artifact`): an optional
explicit name and optional group references for the four axes. -/
structure Artifact : Type where
  name : Option String
  abi_group : Option String
  screen_density_group : Option String
  locale_group : Option String
  android_sdk_group : Option String
deriving DecidableEq, Repr

/-- The post-processing configuration (`PostProcessingConfiguration`):
group-name maps for the four axes (the `std::map`s become association
lists queried by key), the ordered artifact list, and the optional global
naming template. -/
structure PostProcessingConfiguration : Type where
  artifacts : List Artifact
  artifact_format : Option String
  abi_groups : List (String × List String)
  screen_density_groups : List (String × List ConfigDescription)
  locale_groups : List (String × List ConfigDescription)
  android_sdk_groups : List (String × AndroidSdk)
deriving DecidableEq, Repr

/-- The base package's resource data (`ResourceTable`).
Modelled from the spec: the table format is an external collaborator; the
pipeline only needs a cloneable opaque content (§6). -/
structure ResourceTable : Type where
  entries : List String
deriving DecidableEq, Repr

/-- `ResourceTable::Clone()` hands back an independently-owned copy; on
values this is the identity. -/
def ResourceTable.Clone (t : ResourceTable) : ResourceTable := t

/-- A compiled XML attribute (`xml::Attribute`): namespace, local name, and
the compiled integer value (if any). -/
structure Attribute : Type where
  ns : String
  name : String
  compiled_value : Option Int
deriving DecidableEq, Repr

/-- An XML element (`xml::Element`): namespace, local name, source line,
attributes, child elements. -/
inductive Element : Type where
  | mk : String → String → Nat → List Attribute → List Element → Element

def Element.namespace_uri : Element → String
  | .mk ns _ _ _ _ => ns

def Element.name : Element → String
  | .mk _ nm _ _ _ => nm

def Element.line_number : Element → Nat
  | .mk _ _ ln _ _ => ln

def Element.attributes : Element → List Attribute
  | .mk _ _ _ attrs _ => attrs

def Element.children : Element → List Element
  | .mk _ _ _ _ cs => cs

/-- The Android resource schema namespace (`xml::kSchemaAndroid`). -/
def kSchemaAndroid : String := "http://schemas.android.com/apk/res/android"

/-- `xml::Element::FindChild(ns, name)`: first direct child element with the
given namespace and local name. -/
def Element.FindChild (e : Element) (ns nm : String) : Option Element :=
  e.children.find? (fun c => c.namespace_uri == ns && c.name == nm)

/-- `xml::Element::FindAttribute(ns, name)`: first attribute with the given
namespace and local name. -/
def Element.FindAttribute (e : Element) (ns nm : String) : Option Attribute :=
  e.attributes.find? (fun a => a.ns == ns && a.name == nm)

/-- Rewrite the first list entry satisfying `p` by `f`, leaving the rest in
place: the pure counterpart of mutating through the pointer that
`find` returned. -/
def mapFirst (p : α → Bool) (f : α → α) : List α → List α
  | [] => []
  | x :: xs => if p x then f x :: xs else x :: mapFirst p f xs

/-- An XML document (`xml::XmlResource`): possibly-null root element. -/
structure XmlResource : Type where
  root : Option Element

/-- The in-place mutation `min_sdk_attr->compiled_value = TryParseInt(...)`
rendered purely: rebuild the root with the first unqualified `uses-sdk`
child's first `android:minSdkVersion` attribute's compiled value replaced.
`ResourceUtils::TryParseInt(std::to_string(w))` compiles the decimal string
of `w` back to the integer `w` (spec §4.4 step 6: overwrite the compiled
integer value with the SDK group's minimum version). -/
def patchUsesSdkChild (w : Int) : Element → Element
  | .mk cns cnm cln cattrs cch =>
    .mk cns cnm cln
      (mapFirst (fun a => a.ns == kSchemaAndroid && a.name == "minSdkVersion")
        (fun a => { a with compiled_value := some w }) cattrs)
      cch

def patchMinSdk (root : Element) (w : Int) : Element :=
  match root with
  | .mk ns nm ln attrs ch =>
    .mk ns nm ln attrs
      (mapFirst (fun c => c.namespace_uri == "" && c.name == "uses-sdk")
        (patchUsesSdkChild w) ch)

/-- Patch a whole document: the root, when present, is rewritten. -/
def XmlResource.patch (m : XmlResource) (w : Int) : XmlResource :=
  match m.root with
  | none => m
  | some r => { m with root := some (patchMinSdk r w) }

/-- The loaded base APK (`LoadedApk`): source path, resource table, and the
manifest document that `InflateManifest` parses out of it (`none` models a
manifest that fails to inflate). -/
structure LoadedApk : Type where
  path : String
  table : ResourceTable
  manifest : Option XmlResource

/-- Mutable run state threaded through the pipeline: the loaded base APK
(which C++ code could mutate through `apk_`), the diagnostics sink's
message list, and the archives successfully written so far (path, table
content, manifest handed to the writer). -/
structure RunState : Type where
  apk : LoadedApk
  diags : List DiagMessage
  written : List (String × ResourceTable × Option XmlResource)

/-- Append one diagnostic to the sink. -/
def RunState.push (s : RunState) (sev : Severity) (msg : String) : RunState :=
  { s with diags := s.diags ++ [⟨sev, msg⟩] }

/-- How a pipeline step ends: `ok`, or a failure.  `returnedFalse` is the
C++ `return false` / null-return path; `absentOptional` is the process
abort raised by calling `Maybe::value()` on an empty `Maybe`. -/
inductive Failure : Type where
  | returnedFalse
  | absentOptional
deriving DecidableEq, Repr

inductive StepResult (α : Type) : Type where
  | ok (a : α)
  | fail (f : Failure)
deriving DecidableEq, Repr

/-- One resource filter registered in the `FilterChain`; the only kind this
pipeline registers is the ABI filter built from a resolved ABI list. -/
inductive ResourceFilter : Type where
  | abi (abis : List String)
deriving DecidableEq, Repr

abbrev FilterChain := List ResourceFilter

/-- Options assembled for the table splitter (`TableSplitterOptions` plus
the `AxisConfigFilter` config set installed as `config_filter`). -/
structure TableSplitterOptions : Type where
  preferred_densities : List Nat
  config_filter : Option (List ConfigDescription)
deriving DecidableEq, Repr

/-- Modelled from the spec: the external collaborators of §6 that live
outside the file under study — artifact naming (`Artifact::Name` /
`Artifact::ToArtifactName` from the configuration parser), the version
collapser, the table splitter, filesystem helpers, and the archive-writing
routine of the loaded APK.  Each is an opaque function exactly as wide as
the contract the pipeline uses. -/
structure Externals : Type where
  getFilename : String → String
  nameFromExplicit : Artifact → String → Option String
  nameFromTemplate : String → Artifact → String → Option String
  collapse : ContextWrapper → ResourceTable → Option ResourceTable
  split : TableSplitterOptions → ResourceTable → ResourceTable
  mkdirs : String → Bool
  writeToArchive : IAaptContext → ResourceTable → FilterChain → Option XmlResource → String → Bool

/-- Modelled from the spec: `file::AppendPath` composes the output path
from the output directory and the artifact name (§4.5). -/
def appendPath (dir nm : String) : String := dir ++ "/" ++ nm

/-- Options handed to `MultiApkGenerator::FromBaseApk`
(`MultiApkGeneratorOptions`); the table-flattener options are opaque and
absorbed into the archive-writing collaborator. -/
structure MultiApkGeneratorOptions : Type where
  out_dir : String
  config : PostProcessingConfiguration

/-- `GetAndroidSdk` (lines 47-62): resolve the artifact's SDK group by
name; an artifact without an SDK group yields nothing silently, a dangling
reference emits an error diagnostic and also yields nothing. -/
def GetAndroidSdk (artifact : Artifact) (config : PostProcessingConfiguration)
    (diags : List DiagMessage) : Option AndroidSdk × List DiagMessage :=
  match artifact.android_sdk_group with
  | none => (none, diags)
  | some group_name =>
    match config.android_sdk_groups.lookup group_name with
    | none =>
      (none, diags ++ [⟨.error, "could not find referenced group " ++ group_name⟩])
    | some sdk => (some sdk, diags)

/-- `MultiApkGenerator::FilterTable` (lines 218-289): resolve the ABI,
screen-density and locale group references in order, assembling the filter
chain and the splitter options; resolve the SDK group and, when it carries
a minimum version, override the wrapped context's min SDK; then clone the
base table and run the version-collapse and split passes on the clone.  A
dangling group reference or a collapse failure returns a null table after
emitting an error diagnostic. -/
def FilterTable (ctx : IAaptContext) (ext : Externals) (artifact : Artifact)
    (config : PostProcessingConfiguration) (old_table : ResourceTable)
    (diags : List DiagMessage) :
    Option ResourceTable × FilterChain × List DiagMessage :=
  let wrapped := ContextWrapper.fromContext ctx
  let step : Option (FilterChain × TableSplitterOptions × ContextWrapper) ×
      List DiagMessage :=
    match artifact.abi_group with
    | some group_name =>
      match config.abi_groups.lookup group_name with
      | none =>
        (none, diags ++ [⟨.error, "could not find referenced ABI group " ++ group_name⟩])
      | some abis => (some ([ResourceFilter.abi abis], ⟨[], none⟩, wrapped), diags)
    | none => (some ([], ⟨[], none⟩, wrapped), diags)
  let step : Option (FilterChain × TableSplitterOptions × ContextWrapper) ×
      List DiagMessage := match step with
    | (none, d) => (none, d)
    | (some (filters, splits, w), d) =>
      match artifact.screen_density_group with
      | some group_name =>
        match config.screen_density_groups.lookup group_name with
        | none =>
          (none, d ++ [⟨.error, "could not find referenced group " ++ group_name⟩])
        | some densities =>
          (some (filters,
            { splits with
              preferred_densities :=
                splits.preferred_densities ++ densities.map ConfigDescription.density },
            w), d)
      | none => (some (filters, splits, w), d)
  let step : Option (FilterChain × TableSplitterOptions × ContextWrapper) ×
      List DiagMessage := match step with
    | (none, d) => (none, d)
    | (some (filters, splits, w), d) =>
      match artifact.locale_group with
      | some group_name =>
        match config.locale_groups.lookup group_name with
        | none =>
          (none, d ++ [⟨.error, "could not find referenced group " ++ group_name⟩])
        | some locales =>
          (some (filters, { splits with config_filter := some locales }, w), d)
      | none => (some (filters, splits, w), d)
  match step with
  | (none, d) => (none, [], d)
  | (some (filters, splits, w), d) =>
    let (sdk, d) := GetAndroidSdk artifact config d
    let w := match sdk with
      | some s =>
        match s.min_sdk_version with
        | some v => w.SetMinSdkVersion v
        | none => w
      | none => w
    let table := old_table.Clone
    match ext.collapse w table with
    | none => (none, filters, d ++ [⟨.error, "Failed to strip versioned resources"⟩])
    | some collapsed => (some (ext.split splits collapsed), filters, d)

/-- The artifact-name resolution at the head of the per-artifact loop
(lines 134-147): fail when neither an explicit name nor a global template
exists, otherwise expand whichever applies; an expansion miss also fails.
The `config.artifact_format.value()` call is rendered as `absentOptional`,
though the preceding guard makes it unreachable. -/
def nameStage (ext : Externals) (config : PostProcessingConfiguration)
    (apk_name : String) (artifact : Artifact) (s : RunState) :
    StepResult String × RunState :=
  if artifact.name.isNone && config.artifact_format.isNone then
    (.fail .returnedFalse,
      s.push .error "Artifact does not have a name and no global name template defined")
  else
    let artifact_name : StepResult (Option String) :=
      match artifact.name with
      | some _ => .ok (ext.nameFromExplicit artifact apk_name)
      | none =>
        match config.artifact_format with
        | some fmt => .ok (ext.nameFromTemplate fmt artifact apk_name)
        | none => .fail .absentOptional
    match artifact_name with
    | .fail f => (.fail f, s)
    | .ok none =>
      (.fail .returnedFalse, s.push .error "Could not determine split APK artifact name")
    | .ok (some nm) => (.ok nm, s)

/-- The conditional manifest patch (lines 155-190): when an SDK group was
resolved, inflate the manifest, require a root element, require it to be
an unqualified `manifest` tag, and, when an unqualified `uses-sdk` child
carries an `android:minSdkVersion` attribute, overwrite that attribute's
compiled value with the group's minimum version.  The source's inner
`min_sdk_attr == nullptr` test (line 181) re-tests the pointer the
enclosing `if` has just bound non-null, so its error path is unreachable
and leaves no residue here; a `uses-sdk` element without the attribute
simply skips the patch.  Reading the group's minimum version goes through
`Maybe::value()` with no presence check, rendered as `absentOptional`. -/
def patchStage (maybe_sdk : Option AndroidSdk) (s : RunState) :
    StepResult (Option XmlResource) × RunState :=
  match maybe_sdk with
  | none => (.ok none, s)
  | some android_sdk =>
    match s.apk.manifest with
    | none => (.fail .returnedFalse, s)
    | some manifest =>
      match manifest.root with
      | none => (.fail .returnedFalse, s)
      | some manifest_el =>
        if manifest_el.namespace_uri ≠ "" ∨ manifest_el.name ≠ "manifest" then
          (.fail .returnedFalse, s.push .error "root tag must be <manifest>")
        else
          match manifest_el.FindChild "" "uses-sdk" with
          | none => (.ok (some manifest), s)
          | some uses_sdk_el =>
            match uses_sdk_el.FindAttribute kSchemaAndroid "minSdkVersion" with
            | none => (.ok (some manifest), s)
            | some _ =>
              match android_sdk.min_sdk_version with
              | none => (.fail .absentOptional, s)
              | some w => (.ok (some (manifest.patch w)), s)

/-- The tail of the per-artifact loop (lines 192-212): best-effort output
directory creation (a miss is only a warning), path composition, verbose
notes, and the archive write whose failure aborts the run.  A successful
write records the archive's path and content. -/
def writeStage (ctx : IAaptContext) (ext : Externals)
    (opts : MultiApkGeneratorOptions) (artifact_name : String)
    (table : ResourceTable) (filters : FilterChain)
    (manifest : Option XmlResource) (s : RunState) : StepResult Unit × RunState :=
  let s := if ext.mkdirs opts.out_dir then s
    else s.push .warn ("could not create out dir: " ++ opts.out_dir)
  let out := appendPath opts.out_dir artifact_name
  let s := if ctx.verbose then s.push .note ("Generating split: " ++ out) else s
  let s := if ctx.verbose then s.push .note ("Writing output: " ++ out) else s
  if ext.writeToArchive ctx table filters manifest out then
    (.ok (), { s with written := s.written ++ [(out, table, manifest)] })
  else
    (.fail .returnedFalse, s)

/-- One iteration of the artifact loop of `FromBaseApk` (lines 131-213):
name resolution, table filtering, SDK-group resolution and conditional
manifest patch, then the write stage; the first failing stage ends the
iteration with its failure. -/
def processArtifact (ctx : IAaptContext) (ext : Externals)
    (opts : MultiApkGeneratorOptions) (apk_name : String) (artifact : Artifact)
    (s : RunState) : StepResult Unit × RunState :=
  match nameStage ext opts.config apk_name artifact s with
  | (.fail f, s1) => (.fail f, s1)
  | (.ok artifact_name, s1) =>
    match FilterTable ctx ext artifact opts.config s1.apk.table s1.diags with
    | (none, _, d) => (.fail .returnedFalse, { s1 with diags := d })
    | (some table, filters, d) =>
      let s2 : RunState := { s1 with diags := d }
      let sdkd := GetAndroidSdk artifact opts.config s2.diags
      let s3 : RunState := { s2 with diags := sdkd.2 }
      match patchStage sdkd.1 s3 with
      | (.fail f, s4) => (.fail f, s4)
      | (.ok manifest, s4) =>
        writeStage ctx ext opts artifact_name table filters manifest s4

/-- The artifact loop itself: artifacts are processed in declaration
order, and the first failing iteration ends the run with its failure. -/
def FromBaseApkLoop (ctx : IAaptContext) (ext : Externals)
    (opts : MultiApkGeneratorOptions) (apk_name : String) :
    List Artifact → RunState → StepResult Unit × RunState
  | [], s => (.ok (), s)
  | a :: rest, s =>
    match processArtifact ctx ext opts apk_name a s with
    | (.ok _, s1) => FromBaseApkLoop ctx ext opts apk_name rest s1
    | (.fail f, s1) => (.fail f, s1)

/-- `MultiApkGenerator::FromBaseApk` (lines 121-216): compute the base APK
file name and run the artifact loop over the configured artifacts.  (The
`base_name` computed at lines 126-128 is never used by the loop.) -/
def FromBaseApk (ctx : IAaptContext) (ext : Externals)
    (opts : MultiApkGeneratorOptions) (s : RunState) : StepResult Unit × RunState :=
  let apk_name := ext.getFilename s.apk.path
  FromBaseApkLoop ctx ext opts apk_name opts.config.artifacts s

/-! ## Frame lemmas: which parts of the run state each stage can touch -/

theorem push_apk (s : RunState) (sev : Severity) (msg : String) :
    (s.push sev msg).apk = s.apk := rfl

theorem push_written (s : RunState) (sev : Severity) (msg : String) :
    (s.push sev msg).written = s.written := rfl

theorem nameStage_apk (ext : Externals) (config : PostProcessingConfiguration)
    (apk_name : String) (a : Artifact) (s : RunState) :
    ((nameStage ext config apk_name a s).2).apk = s.apk := by
  simp only [nameStage]
  repeat' split
  all_goals rfl

theorem nameStage_written (ext : Externals) (config : PostProcessingConfiguration)
    (apk_name : String) (a : Artifact) (s : RunState) :
    ((nameStage ext config apk_name a s).2).written = s.written := by
  simp only [nameStage]
  repeat' split
  all_goals rfl

theorem nameStage_ok (ext : Externals) (config : PostProcessingConfiguration)
    (apk_name : String) (a : Artifact) (s : RunState) (nm : String)
    (h : (nameStage ext config apk_name a s).1 = .ok nm) :
    nameStage ext config apk_name a s = (.ok nm, s) := by
  simp only [nameStage] at h ⊢
  repeat' split at h
  all_goals simp_all

theorem patchStage_apk (msdk : Option AndroidSdk) (s : RunState) :
    ((patchStage msdk s).2).apk = s.apk := by
  simp only [patchStage]
  repeat' split
  all_goals rfl

theorem patchStage_written (msdk : Option AndroidSdk) (s : RunState) :
    ((patchStage msdk s).2).written = s.written := by
  simp only [patchStage]
  repeat' split
  all_goals rfl

theorem writeStage_apk (ctx : IAaptContext) (ext : Externals)
    (opts : MultiApkGeneratorOptions) (nm : String) (t : ResourceTable)
    (fl : FilterChain) (mf : Option XmlResource) (s : RunState) :
    ((writeStage ctx ext opts nm t fl mf s).2).apk = s.apk := by
  simp only [writeStage]
  repeat' split
  all_goals rfl

theorem writeStage_written (ctx : IAaptContext) (ext : Externals)
    (opts : MultiApkGeneratorOptions) (nm : String) (t : ResourceTable)
    (fl : FilterChain) (mf : Option XmlResource) (s : RunState) :
    ∃ extra, ((writeStage ctx ext opts nm t fl mf s).2).written = s.written ++ extra := by
  simp only [writeStage]
  repeat' split
  all_goals simp [RunState.push]

theorem processArtifact_apk (ctx : IAaptContext) (ext : Externals)
    (opts : MultiApkGeneratorOptions) (apk_name : String) (a : Artifact)
    (s : RunState) :
    ((processArtifact ctx ext opts apk_name a s).2).apk = s.apk := by
  simp only [processArtifact]
  split
  next f s1 heq =>
    have h := nameStage_apk ext opts.config apk_name a s
    rw [heq] at h
    exact h
  next nm s1 heq =>
    have h1 := nameStage_apk ext opts.config apk_name a s
    rw [heq] at h1
    split
    · exact h1
    next table filters d heq1 =>
      split
      next f s4 heq2 =>
        have h2 := patchStage_apk (GetAndroidSdk a opts.config d).1
          { apk := s1.apk, diags := (GetAndroidSdk a opts.config d).2, written := s1.written }
        rw [heq2] at h2
        exact h2.trans h1
      next mf s4 heq2 =>
        have h2 := patchStage_apk (GetAndroidSdk a opts.config d).1
          { apk := s1.apk, diags := (GetAndroidSdk a opts.config d).2, written := s1.written }
        rw [heq2] at h2
        exact (writeStage_apk ctx ext opts nm table filters mf s4).trans (h2.trans h1)

theorem processArtifact_written (ctx : IAaptContext) (ext : Externals)
    (opts : MultiApkGeneratorOptions) (apk_name : String) (a : Artifact)
    (s : RunState) :
    ∃ extra, ((processArtifact ctx ext opts apk_name a s).2).written =
      s.written ++ extra := by
  simp only [processArtifact]
  split
  next f s1 heq =>
    have h := nameStage_written ext opts.config apk_name a s
    rw [heq] at h
    exact ⟨[], by simpa using h⟩
  next nm s1 heq =>
    have h1 := nameStage_written ext opts.config apk_name a s
    rw [heq] at h1
    split
    · exact ⟨[], by simpa using h1⟩
    next table filters d heq1 =>
      split
      next f s4 heq2 =>
        have h2 := patchStage_written (GetAndroidSdk a opts.config d).1
          { apk := s1.apk, diags := (GetAndroidSdk a opts.config d).2, written := s1.written }
        rw [heq2] at h2
        simp only [Prod.snd] at h1 h2
        exact ⟨[], by simp at h2 ⊢; rw [h2]; simpa using h1⟩
      next mf s4 heq2 =>
        have h2 := patchStage_written (GetAndroidSdk a opts.config d).1
          { apk := s1.apk, diags := (GetAndroidSdk a opts.config d).2, written := s1.written }
        rw [heq2] at h2
        obtain ⟨extra, h3⟩ := writeStage_written ctx ext opts nm table filters mf s4
        refine ⟨extra, ?_⟩
        rw [h3]
        simp at h2
        rw [h2]
        simp at h1
        rw [h1]

theorem loop_apk (ctx : IAaptContext) (ext : Externals)
    (opts : MultiApkGeneratorOptions) (apk_name : String) (l : List Artifact)
    (s : RunState) :
    ((FromBaseApkLoop ctx ext opts apk_name l s).2).apk = s.apk := by
  induction l generalizing s with
  | nil => rfl
  | cons a rest ih =>
    unfold FromBaseApkLoop
    split
    case _ s1 heq =>
      have h := processArtifact_apk ctx ext opts apk_name a s
      rw [heq] at h
      exact (ih s1).trans h
    case _ f s1 heq =>
      have h := processArtifact_apk ctx ext opts apk_name a s
      rw [heq] at h
      exact h

/-! ## Loop structure lemmas -/

theorem loop_append (ctx : IAaptContext) (ext : Externals)
    (opts : MultiApkGeneratorOptions) (apk_name : String)
    (l1 l2 : List Artifact) (s : RunState) :
    FromBaseApkLoop ctx ext opts apk_name (l1 ++ l2) s =
      match FromBaseApkLoop ctx ext opts apk_name l1 s with
      | (.ok _, s1) => FromBaseApkLoop ctx ext opts apk_name l2 s1
      | (.fail f, s1) => (.fail f, s1) := by
  induction l1 generalizing s with
  | nil => simp [FromBaseApkLoop]
  | cons a rest ih =>
    simp only [List.cons_append, FromBaseApkLoop]
    cases h : processArtifact ctx ext opts apk_name a s with
    | mk r s1 =>
      cases r with
      | ok u => simp [ih]
      | fail f => simp

theorem loop_ne_ok_of_mem (ctx : IAaptContext) (ext : Externals)
    (opts : MultiApkGeneratorOptions) (apk_name : String) (a : Artifact)
    (hf : ∀ s : RunState, ∃ f, (processArtifact ctx ext opts apk_name a s).1 = .fail f) :
    ∀ l : List Artifact, a ∈ l → ∀ s : RunState,
      (FromBaseApkLoop ctx ext opts apk_name l s).1 ≠ .ok () := by
  intro l
  induction l with
  | nil => intro ha; cases ha
  | cons b rest ih =>
    intro ha s
    unfold FromBaseApkLoop
    cases hb : processArtifact ctx ext opts apk_name b s with
    | mk r s1 =>
      cases r with
      | ok u =>
        rcases List.mem_cons.mp ha with hba | hmem
        · subst hba
          obtain ⟨f, hf1⟩ := hf s
          rw [hb] at hf1
          cases hf1
        · exact ih hmem s1
      | fail f => simp

/-! ## FilterTable resolution lemmas -/

theorem FilterTable_abi_missing (ctx : IAaptContext) (ext : Externals)
    (a : Artifact) (config : PostProcessingConfiguration) (t : ResourceTable)
    (d : List DiagMessage) (g : String) (habi : a.abi_group = some g)
    (hlk : config.abi_groups.lookup g = none) :
    FilterTable ctx ext a config t d =
      (none, [], d ++ [⟨.error, "could not find referenced ABI group " ++ g⟩]) := by
  simp only [FilterTable, habi, hlk]

/-- An axis binding that does not dangle: either absent, or its group name
resolves in the given mapping. -/
def resolvesIn (binding : Option String) (groups : List (String × α)) : Prop :=
  binding = none ∨ ∃ g v, binding = some g ∧ groups.lookup g = some v

theorem FilterTable_density_missing (ctx : IAaptContext) (ext : Externals)
    (a : Artifact) (config : PostProcessingConfiguration) (t : ResourceTable)
    (d : List DiagMessage) (g : String)
    (habi : resolvesIn a.abi_group config.abi_groups)
    (hd : a.screen_density_group = some g)
    (hlk : config.screen_density_groups.lookup g = none) :
    FilterTable ctx ext a config t d =
      (none, [], d ++ [⟨.error, "could not find referenced group " ++ g⟩]) := by
  rcases habi with h1 | ⟨ga, abis, hga, hlkga⟩
  · simp only [FilterTable, h1, hd, hlk]
  · simp only [FilterTable, hga, hlkga, hd, hlk]

theorem FilterTable_locale_missing (ctx : IAaptContext) (ext : Externals)
    (a : Artifact) (config : PostProcessingConfiguration) (t : ResourceTable)
    (d : List DiagMessage) (g : String)
    (habi : resolvesIn a.abi_group config.abi_groups)
    (hdn : resolvesIn a.screen_density_group config.screen_density_groups)
    (hl : a.locale_group = some g)
    (hlk : config.locale_groups.lookup g = none) :
    FilterTable ctx ext a config t d =
      (none, [], d ++ [⟨.error, "could not find referenced group " ++ g⟩]) := by
  rcases habi with h1 | ⟨ga, abis, hga, hlkga⟩
  · rcases hdn with h2 | ⟨gd, ds, hgd, hlkgd⟩
    · simp only [FilterTable, h1, h2, hl, hlk]
    · simp only [FilterTable, h1, hgd, hlkgd, hl, hlk]
  · rcases hdn with h2 | ⟨gd, ds, hgd, hlkgd⟩
    · simp only [FilterTable, hga, hlkga, h2, hl, hlk]
    · simp only [FilterTable, hga, hlkga, hgd, hlkgd, hl, hlk]

theorem processArtifact_fails_of_filter_none (ctx : IAaptContext) (ext : Externals)
    (opts : MultiApkGeneratorOptions) (apk_name : String) (a : Artifact)
    (s : RunState)
    (hft : (FilterTable ctx ext a opts.config s.apk.table s.diags).1 = none) :
    ∃ f, (processArtifact ctx ext opts apk_name a s).1 = .fail f := by
  simp only [processArtifact]
  split
  next f s1 heq => exact ⟨f, rfl⟩
  next nm s1 heq =>
    have hs1 := nameStage_ok ext opts.config apk_name a s nm (by rw [heq])
    rw [heq] at hs1
    have hs : s1 = s := congrArg Prod.snd hs1
    subst hs
    split
    next heq1 => exact ⟨.returnedFalse, rfl⟩
    next table filters d heq1 =>
      rw [heq1] at hft
      cases hft

/-! ## Claim theorems -/

/-- C5: for every run over any number of artifacts, the base resource
table is never mutated: the run state's loaded APK — its resource table
and its manifest — is identical after `FromBaseApk` to its pre-run value,
because `FilterTable` clones the base table and every collapse/split
mutation is applied only to the clone. -/
theorem c5_base_table_never_mutated (ctx : IAaptContext) (ext : Externals)
    (opts : MultiApkGeneratorOptions) (s : RunState) :
    ((FromBaseApk ctx ext opts s).2).apk = s.apk ∧
    ((FromBaseApk ctx ext opts s).2).apk.table = s.apk.table := by
  have h : ((FromBaseApk ctx ext opts s).2).apk = s.apk := by
    simp only [FromBaseApk]
    exact loop_apk ctx ext opts (ext.getFilename s.apk.path) opts.config.artifacts s
  exact ⟨h, by rw [h]⟩

/-- C10: the per-artifact context wrapper overrides exactly one observable
field.  After overriding the min SDK, every other accessor of
`ContextWrapper` returns the same value as the base context, the min-SDK
accessor returns the override, the wrapped base context is unchanged, and
before any override the min-SDK accessor returns the base context's
value. -/
theorem c10_context_wrapper_overrides_only_min_sdk (c : IAaptContext) (m : Int) :
    ((ContextWrapper.fromContext c).SetMinSdkVersion m).GetPackageType = c.package_type ∧
    ((ContextWrapper.fromContext c).SetMinSdkVersion m).GetExternalSymbols = c.external_symbols ∧
    ((ContextWrapper.fromContext c).SetMinSdkVersion m).GetDiagnostics = c.diagnostics ∧
    ((ContextWrapper.fromContext c).SetMinSdkVersion m).GetCompilationPackage = c.compilation_package ∧
    ((ContextWrapper.fromContext c).SetMinSdkVersion m).GetPackageId = c.package_id ∧
    ((ContextWrapper.fromContext c).SetMinSdkVersion m).GetNameMangler = c.name_mangler ∧
    ((ContextWrapper.fromContext c).SetMinSdkVersion m).IsVerbose = c.verbose ∧
    ((ContextWrapper.fromContext c).SetMinSdkVersion m).GetMinSdkVersion = m ∧
    ((ContextWrapper.fromContext c).SetMinSdkVersion m).context = c ∧
    (ContextWrapper.fromContext c).GetMinSdkVersion = c.min_sdk_version :=
  ⟨rfl, rfl, rfl, rfl, rfl, rfl, rfl, rfl, rfl, rfl⟩

/-- C3: artifacts are processed strictly in configuration-declaration
order, and the first artifact that fails any step makes the whole run
return that failure immediately: when the artifacts are `l1 ++ a :: l2`,
the prefix `l1` succeeds, and `a` fails, the run's result is exactly the
failing state after `a` — independent of the suffix `l2`, so no later
artifact is named, filtered, or written — while the archives recorded by
the prefix are preserved (the failing artifact only appends). -/
theorem c3_fail_fast_in_declaration_order (ctx : IAaptContext) (ext : Externals)
    (opts : MultiApkGeneratorOptions) (s : RunState) (l1 l2 : List Artifact)
    (a : Artifact) (f : Failure)
    (hcfg : opts.config.artifacts = l1 ++ a :: l2)
    (h1 : (FromBaseApkLoop ctx ext opts (ext.getFilename s.apk.path) l1 s).1 = .ok ())
    (h2 : (processArtifact ctx ext opts (ext.getFilename s.apk.path) a
      (FromBaseApkLoop ctx ext opts (ext.getFilename s.apk.path) l1 s).2).1 = .fail f) :
    FromBaseApk ctx ext opts s =
      (.fail f,
       (processArtifact ctx ext opts (ext.getFilename s.apk.path) a
         (FromBaseApkLoop ctx ext opts (ext.getFilename s.apk.path) l1 s).2).2) ∧
    ∃ extra,
      (processArtifact ctx ext opts (ext.getFilename s.apk.path) a
        (FromBaseApkLoop ctx ext opts (ext.getFilename s.apk.path) l1 s).2).2.written =
      (FromBaseApkLoop ctx ext opts (ext.getFilename s.apk.path) l1 s).2.written ++ extra := by
  constructor
  · simp only [FromBaseApk]
    rw [hcfg]
    set an := ext.getFilename s.apk.path with han
    set s1 := (FromBaseApkLoop ctx ext opts an l1 s).2 with hs1
    have hl : FromBaseApkLoop ctx ext opts an l1 s = (.ok (), s1) := by
      rw [hs1, ← h1]
    set s2 := (processArtifact ctx ext opts an a s1).2 with hs2
    have hp : processArtifact ctx ext opts an a s1 = (.fail f, s2) := by
      rw [hs2, ← h2]
    rw [loop_append, hl]
    simp only [FromBaseApkLoop]
    rw [hp]
  · exact processArtifact_written ctx ext opts (ext.getFilename s.apk.path) a
      (FromBaseApkLoop ctx ext opts (ext.getFilename s.apk.path) l1 s).2

/-! ## Concrete fixtures for closed evaluations -/

/-- A non-verbose base build context. -/
def ctxT : IAaptContext := ⟨.app, 0, 0, "com.example.app", 127, 0, false, 1⟩

/-- Benign external collaborators: naming returns the explicit name or the
base name, collapse and split leave the table unchanged, the filesystem
and the archive writer succeed. -/
def extT : Externals :=
  { getFilename := fun p => p,
    nameFromExplicit := fun a _ => a.name,
    nameFromTemplate := fun _ _ n => some (n ++ ".split"),
    collapse := fun _ t => some t,
    split := fun _ t => t,
    mkdirs := fun _ => true,
    writeToArchive := fun _ _ _ _ _ => true }

/-- A `uses-sdk` element carrying no attribute at all. -/
def usesSdkNoAttr : Element := .mk "" "uses-sdk" 3 [] []

/-- Manifest root whose `uses-sdk` child lacks `android:minSdkVersion`. -/
def rootC1 : Element := .mk "" "manifest" 1 [] [usesSdkNoAttr]

def apkC1 : LoadedApk := ⟨"app.apk", ⟨["res"]⟩, some ⟨some rootC1⟩⟩

def artC1 : Artifact := ⟨some "app-v21.apk", none, none, none, some "v21"⟩

def cfgC1 : PostProcessingConfiguration :=
  ⟨[artC1], none, [], [], [], [("v21", ⟨some 21⟩)]⟩

def optsC1 : MultiApkGeneratorOptions := ⟨"out", cfgC1⟩

def s0C1 : RunState := ⟨apkC1, [], []⟩

/-- A compiled `android:minSdkVersion` attribute with value 19. -/
def attrV : Attribute := ⟨kSchemaAndroid, "minSdkVersion", some 19⟩

/-- A `uses-sdk` element carrying `android:minSdkVersion`. -/
def usesSdkWithAttr : Element := .mk "" "uses-sdk" 3 [attrV] []

def rootC9 : Element := .mk "" "manifest" 1 [] [usesSdkWithAttr]

def apkC9 : LoadedApk := ⟨"app.apk", ⟨["res"]⟩, some ⟨some rootC9⟩⟩

def artC9 : Artifact := ⟨some "app-v0.apk", none, none, none, some "v0"⟩

/-- A configuration whose SDK group carries no minimum version. -/
def cfgC9 : PostProcessingConfiguration :=
  ⟨[artC9], none, [], [], [], [("v0", ⟨none⟩)]⟩

def optsC9 : MultiApkGeneratorOptions := ⟨"out", cfgC9⟩

def s0C9 : RunState := ⟨apkC9, [], []⟩

/-- An artifact referencing an SDK group name that no mapping defines. -/
def artC2 : Artifact := ⟨some "a.apk", none, none, none, some "nope"⟩

def cfgC2 : PostProcessingConfiguration := ⟨[artC2], none, [], [], [], []⟩

def optsC2 : MultiApkGeneratorOptions := ⟨"out", cfgC2⟩

def s0C2 : RunState := ⟨apkC1, [], []⟩

/-- C1 (code bug): the claim — and the spec — demand that a `uses-sdk`
element lacking `android:minSdkVersion` abort the run with
`MissingMinSdkAttribute`.  The code's inner null-check (line 181) re-tests
the pointer that the enclosing `if` (line 179) has just bound non-null, so
the error path is dead: on a manifest whose `uses-sdk` child has no
min-SDK attribute, the run succeeds, emits no diagnostic at all, and the
artifact is written. -/
theorem c1_missing_min_sdk_attr_not_fatal :
    rootC1.FindChild "" "uses-sdk" = some usesSdkNoAttr ∧
    usesSdkNoAttr.FindAttribute kSchemaAndroid "minSdkVersion" = none ∧
    (FromBaseApk ctxT extT optsC1 s0C1).1 = .ok () ∧
    (FromBaseApk ctxT extT optsC1 s0C1).2.diags = [] ∧
    (FromBaseApk ctxT extT optsC1 s0C1).2.written.map Prod.fst = ["out/app-v21.apk"] :=
  ⟨rfl, rfl, rfl, rfl, rfl⟩

/-- C9 (code bug): the claim says the patch step never reads an absent
optional.  But the patch step is entered whenever the artifact's SDK group
resolves — with no check that the group carries a minimum version (unlike
`FilterTable`, line 274, which guards the same access) — so a resolved SDK
group with no minimum version reaches `min_sdk_version.value()` (line 186)
on an empty optional and the process aborts. -/
theorem c9_patch_step_reads_absent_optional :
    cfgC9.android_sdk_groups.lookup "v0" = some ⟨none⟩ ∧
    rootC9.FindChild "" "uses-sdk" = some usesSdkWithAttr ∧
    usesSdkWithAttr.FindAttribute kSchemaAndroid "minSdkVersion" = some attrV ∧
    (FromBaseApk ctxT extT optsC9 s0C9).1 = .fail .absentOptional :=
  ⟨rfl, rfl, rfl, rfl⟩

/-- C2 (counterexample): an artifact referencing an SDK group absent from
the SDK-axis mapping does NOT make the pipeline fail: the run emits the
error diagnostic (twice — once from `FilterTable`'s `GetAndroidSdk` call
and once from `FromBaseApk`'s), then continues, writes the artifact, and
reports success, contradicting the claim that generation of the artifact
fails and the pipeline reports failure. -/
theorem c2_sdk_axis_counterexample :
    artC2.android_sdk_group = some "nope" ∧
    cfgC2.android_sdk_groups.lookup "nope" = none ∧
    (FromBaseApk ctxT extT optsC2 s0C2).1 = .ok () ∧
    (FromBaseApk ctxT extT optsC2 s0C2).2.diags =
      [⟨.error, "could not find referenced group nope"⟩,
       ⟨.error, "could not find referenced group nope"⟩] ∧
    (FromBaseApk ctxT extT optsC2 s0C2).2.written.map Prod.fst = ["out/a.apk"] :=
  ⟨rfl, rfl, rfl, rfl, rfl⟩

/-- Helper: an artifact with neither an explicit name nor a global naming
template fails immediately at the head of its loop iteration, at every
state, touching nothing but the diagnostics sink. -/
theorem processArtifact_missing_name (ctx : IAaptContext) (ext : Externals)
    (opts : MultiApkGeneratorOptions) (apk_name : String) (a : Artifact)
    (s : RunState) (hn : a.name = none)
    (hf : opts.config.artifact_format = none) :
    processArtifact ctx ext opts apk_name a s =
      (.fail .returnedFalse,
       s.push .error "Artifact does not have a name and no global name template defined") := by
  simp [processArtifact, nameStage, hn, hf]

/-- C4: an artifact with neither an explicit name nor a global naming
template makes generation fail with the missing-name-template diagnostic,
no file is written for that artifact, and whenever such an artifact is
among the configured artifacts the whole pipeline returns failure. -/
theorem c4_missing_name_template (ctx : IAaptContext) (ext : Externals)
    (opts : MultiApkGeneratorOptions) (apk_name : String) (a : Artifact)
    (s : RunState) (hn : a.name = none)
    (hf : opts.config.artifact_format = none) :
    processArtifact ctx ext opts apk_name a s =
      (.fail .returnedFalse,
       s.push .error "Artifact does not have a name and no global name template defined") ∧
    (processArtifact ctx ext opts apk_name a s).2.written = s.written ∧
    (a ∈ opts.config.artifacts → (FromBaseApk ctx ext opts s).1 ≠ .ok ()) := by
  have h := processArtifact_missing_name ctx ext opts apk_name a s hn hf
  refine ⟨h, by rw [h]; rfl, ?_⟩
  intro ha
  simp only [FromBaseApk]
  exact loop_ne_ok_of_mem ctx ext opts (ext.getFilename s.apk.path) a
    (fun s' => ⟨.returnedFalse,
      by rw [processArtifact_missing_name ctx ext opts (ext.getFilename s.apk.path) a s' hn hf]⟩)
    opts.config.artifacts ha s

/-- A nameless artifact for the C4 witness. -/
def artC4 : Artifact := ⟨none, none, none, none, none⟩

def cfgC4 : PostProcessingConfiguration := ⟨[artC4], none, [], [], [], []⟩

def optsC4 : MultiApkGeneratorOptions := ⟨"out", cfgC4⟩

def s0C4 : RunState := ⟨apkC1, [], []⟩

theorem c4_missing_name_template_witness :
    artC4.name = none ∧ optsC4.config.artifact_format = none ∧
    (processArtifact ctxT extT optsC4 "app.apk" artC4 s0C4 =
      (.fail .returnedFalse,
       s0C4.push .error "Artifact does not have a name and no global name template defined") ∧
     (processArtifact ctxT extT optsC4 "app.apk" artC4 s0C4).2.written = s0C4.written ∧
     (artC4 ∈ optsC4.config.artifacts → (FromBaseApk ctxT extT optsC4 s0C4).1 ≠ .ok ())) :=
  ⟨rfl, rfl, c4_missing_name_template ctxT extT optsC4 "app.apk" artC4 s0C4 rfl rfl⟩

/-- C2 (amended): a dangling group reference on the ABI, screen-density or
locale axis makes `FilterTable` return a null table with an error
diagnostic naming the group (for the density and locale axes this holds
for any artifact whose earlier axes, when bound, resolve — and in
particular for artifacts with valid ABI or density bindings), the
artifact's generation fails, and whenever such an artifact is among the
configured artifacts the whole pipeline reports failure.  A dangling
SDK-axis reference only emits the diagnostic: `GetAndroidSdk` returns
nothing and the patch step treats that as "no SDK group", so this axis
does not abort the run.  In every case the base APK (table and manifest)
is unmodified. -/
theorem c2_missing_group_reference (ctx : IAaptContext) (ext : Externals)
    (opts : MultiApkGeneratorOptions) (apk_name : String) (a : Artifact)
    (g : String) (s : RunState) (t : ResourceTable) (d : List DiagMessage) :
    (a.abi_group = some g → opts.config.abi_groups.lookup g = none →
      FilterTable ctx ext a opts.config t d =
        (none, [], d ++ [⟨.error, "could not find referenced ABI group " ++ g⟩]) ∧
      (∃ f, (processArtifact ctx ext opts apk_name a s).1 = .fail f) ∧
      (a ∈ opts.config.artifacts → (FromBaseApk ctx ext opts s).1 ≠ .ok ())) ∧
    (resolvesIn a.abi_group opts.config.abi_groups →
      a.screen_density_group = some g →
      opts.config.screen_density_groups.lookup g = none →
      FilterTable ctx ext a opts.config t d =
        (none, [], d ++ [⟨.error, "could not find referenced group " ++ g⟩]) ∧
      (∃ f, (processArtifact ctx ext opts apk_name a s).1 = .fail f) ∧
      (a ∈ opts.config.artifacts → (FromBaseApk ctx ext opts s).1 ≠ .ok ())) ∧
    (resolvesIn a.abi_group opts.config.abi_groups →
      resolvesIn a.screen_density_group opts.config.screen_density_groups →
      a.locale_group = some g →
      opts.config.locale_groups.lookup g = none →
      FilterTable ctx ext a opts.config t d =
        (none, [], d ++ [⟨.error, "could not find referenced group " ++ g⟩]) ∧
      (∃ f, (processArtifact ctx ext opts apk_name a s).1 = .fail f) ∧
      (a ∈ opts.config.artifacts → (FromBaseApk ctx ext opts s).1 ≠ .ok ())) ∧
    (a.android_sdk_group = some g → opts.config.android_sdk_groups.lookup g = none →
      GetAndroidSdk a opts.config d =
        (none, d ++ [⟨.error, "could not find referenced group " ++ g⟩]) ∧
      patchStage none s = (.ok none, s)) ∧
    ((processArtifact ctx ext opts apk_name a s).2).apk = s.apk := by
  have pipeline : (∀ s2 : RunState,
      (FilterTable ctx ext a opts.config s2.apk.table s2.diags).1 = none) →
      (∃ f, (processArtifact ctx ext opts apk_name a s).1 = .fail f) ∧
      (a ∈ opts.config.artifacts → (FromBaseApk ctx ext opts s).1 ≠ .ok ()) := by
    intro hall
    refine ⟨processArtifact_fails_of_filter_none ctx ext opts apk_name a s (hall s), ?_⟩
    intro ha
    simp only [FromBaseApk]
    exact loop_ne_ok_of_mem ctx ext opts (ext.getFilename s.apk.path) a
      (fun s2 => processArtifact_fails_of_filter_none ctx ext opts
        (ext.getFilename s.apk.path) a s2 (hall s2))
      opts.config.artifacts ha s
  refine ⟨?_, ?_, ?_, ?_, processArtifact_apk ctx ext opts apk_name a s⟩
  · intro h1 h2
    refine ⟨FilterTable_abi_missing ctx ext a opts.config t d g h1 h2, ?_⟩
    exact pipeline (fun s2 => by
      rw [FilterTable_abi_missing ctx ext a opts.config s2.apk.table s2.diags g h1 h2])
  · intro h0 h1 h2
    refine ⟨FilterTable_density_missing ctx ext a opts.config t d g h0 h1 h2, ?_⟩
    exact pipeline (fun s2 => by
      rw [FilterTable_density_missing ctx ext a opts.config s2.apk.table s2.diags g h0 h1 h2])
  · intro h0 h9 h1 h2
    refine ⟨FilterTable_locale_missing ctx ext a opts.config t d g h0 h9 h1 h2, ?_⟩
    exact pipeline (fun s2 => by
      rw [FilterTable_locale_missing ctx ext a opts.config s2.apk.table s2.diags g h0 h9 h1 h2])
  · intro h1 h2
    exact ⟨by simp [GetAndroidSdk, h1, h2], rfl⟩

/-- Artifacts with a dangling reference on each axis; the density-dangling
one also carries a valid ABI binding, and the locale-dangling one carries
valid ABI and density bindings, exercising the general hypotheses. -/
def artW1 : Artifact := ⟨some "w1.apk", some "gA", none, none, none⟩

def artW2 : Artifact := ⟨some "w2.apk", some "armGroup", some "gD", none, none⟩

def artW3 : Artifact := ⟨some "w3.apk", some "armGroup", some "mdpiGroup", some "gL", none⟩

/-- A configuration defining valid ABI and density groups and listing the
dangling-reference artifacts. -/
def cfgC2W : PostProcessingConfiguration :=
  ⟨[artW1, artW2, artW3, artC2], none,
   [("armGroup", ["armeabi-v7a", "arm64-v8a"])],
   [("mdpiGroup", [⟨160, "mdpi"⟩])], [], []⟩

def optsC2W : MultiApkGeneratorOptions := ⟨"out", cfgC2W⟩

theorem c2_missing_group_reference_witness :
    (artW1.abi_group = some "gA" ∧ optsC2W.config.abi_groups.lookup "gA" = none ∧
     FilterTable ctxT extT artW1 optsC2W.config ⟨["res"]⟩ [] =
       (none, [], [] ++ [⟨.error, "could not find referenced ABI group " ++ "gA"⟩]) ∧
     (∃ f, (processArtifact ctxT extT optsC2W "app.apk" artW1 s0C2).1 = .fail f) ∧
     (artW1 ∈ optsC2W.config.artifacts → (FromBaseApk ctxT extT optsC2W s0C2).1 ≠ .ok ())) ∧
    (resolvesIn artW2.abi_group optsC2W.config.abi_groups ∧
     artW2.screen_density_group = some "gD" ∧
     optsC2W.config.screen_density_groups.lookup "gD" = none ∧
     FilterTable ctxT extT artW2 optsC2W.config ⟨["res"]⟩ [] =
       (none, [], [] ++ [⟨.error, "could not find referenced group " ++ "gD"⟩]) ∧
     (∃ f, (processArtifact ctxT extT optsC2W "app.apk" artW2 s0C2).1 = .fail f) ∧
     (artW2 ∈ optsC2W.config.artifacts → (FromBaseApk ctxT extT optsC2W s0C2).1 ≠ .ok ())) ∧
    (resolvesIn artW3.abi_group optsC2W.config.abi_groups ∧
     resolvesIn artW3.screen_density_group optsC2W.config.screen_density_groups ∧
     artW3.locale_group = some "gL" ∧
     optsC2W.config.locale_groups.lookup "gL" = none ∧
     FilterTable ctxT extT artW3 optsC2W.config ⟨["res"]⟩ [] =
       (none, [], [] ++ [⟨.error, "could not find referenced group " ++ "gL"⟩]) ∧
     (∃ f, (processArtifact ctxT extT optsC2W "app.apk" artW3 s0C2).1 = .fail f) ∧
     (artW3 ∈ optsC2W.config.artifacts → (FromBaseApk ctxT extT optsC2W s0C2).1 ≠ .ok ())) ∧
    (artC2.android_sdk_group = some "nope" ∧
     optsC2W.config.android_sdk_groups.lookup "nope" = none ∧
     GetAndroidSdk artC2 optsC2W.config [] =
       (none, [] ++ [⟨.error, "could not find referenced group " ++ "nope"⟩]) ∧
     patchStage none s0C2 = (.ok none, s0C2)) ∧
    ((processArtifact ctxT extT optsC2W "app.apk" artC2 s0C2).2).apk = s0C2.apk ∧
    (FromBaseApk ctxT extT optsC2W s0C2).1 ≠ .ok () := by
  have habi2 : resolvesIn artW2.abi_group optsC2W.config.abi_groups :=
    Or.inr ⟨"armGroup", ["armeabi-v7a", "arm64-v8a"], rfl, rfl⟩
  have habi3 : resolvesIn artW3.abi_group optsC2W.config.abi_groups :=
    Or.inr ⟨"armGroup", ["armeabi-v7a", "arm64-v8a"], rfl, rfl⟩
  have hdn3 : resolvesIn artW3.screen_density_group optsC2W.config.screen_density_groups :=
    Or.inr ⟨"mdpiGroup", [⟨160, "mdpi"⟩], rfl, rfl⟩
  have h1 := (c2_missing_group_reference ctxT extT optsC2W "app.apk" artW1 "gA" s0C2
    ⟨["res"]⟩ []).1 rfl rfl
  have h2 := (c2_missing_group_reference ctxT extT optsC2W "app.apk" artW2 "gD" s0C2
    ⟨["res"]⟩ []).2.1 habi2 rfl rfl
  have h3 := (c2_missing_group_reference ctxT extT optsC2W "app.apk" artW3 "gL" s0C2
    ⟨["res"]⟩ []).2.2.1 habi3 hdn3 rfl rfl
  have h4 := (c2_missing_group_reference ctxT extT optsC2W "app.apk" artC2 "nope" s0C2
    ⟨["res"]⟩ []).2.2.2.1 rfl rfl
  have h5 := (c2_missing_group_reference ctxT extT optsC2W "app.apk" artC2 "nope" s0C2
    ⟨["res"]⟩ []).2.2.2.2
  exact ⟨⟨rfl, rfl, h1.1, h1.2.1, h1.2.2⟩,
    ⟨habi2, rfl, rfl, h2.1, h2.2.1, h2.2.2⟩,
    ⟨habi3, hdn3, rfl, rfl, h3.1, h3.2.1, h3.2.2⟩,
    ⟨rfl, rfl, h4.1, h4.2⟩, h5,
    h1.2.2 (by decide)⟩

/-- C6: an SDK-grouped artifact whose manifest has a valid `<manifest>`
root but no direct unqualified `uses-sdk` child is not an error: the patch
step returns the manifest unchanged with no diagnostic, and the artifact's
iteration continues straight to the write stage with that unpatched
manifest. -/
theorem c6_missing_uses_sdk_not_an_error (ctx : IAaptContext) (ext : Externals)
    (opts : MultiApkGeneratorOptions) (apk_name : String) (a : Artifact)
    (s : RunState) (nm : String) (t : ResourceTable) (fl : FilterChain)
    (d : List DiagMessage) (sdk : AndroidSdk) (m : XmlResource) (el : Element)
    (hname : (nameStage ext opts.config apk_name a s).1 = .ok nm)
    (hft : FilterTable ctx ext a opts.config s.apk.table s.diags = (some t, fl, d))
    (hsdk : GetAndroidSdk a opts.config d = (some sdk, d))
    (hman : s.apk.manifest = some m)
    (hroot : m.root = some el)
    (hns : el.namespace_uri = "") (hnme : el.name = "manifest")
    (hch : el.FindChild "" "uses-sdk" = none) :
    patchStage (some sdk) { s with diags := d } = (.ok (some m), { s with diags := d }) ∧
    processArtifact ctx ext opts apk_name a s =
      writeStage ctx ext opts nm t fl (some m) { s with diags := d } := by
  have hpatch : patchStage (some sdk) ({ s with diags := d } : RunState) =
      (.ok (some m), { s with diags := d }) := by
    simp [patchStage, hman, hroot, hns, hnme, hch]
  refine ⟨hpatch, ?_⟩
  have hns1 := nameStage_ok ext opts.config apk_name a s nm hname
  simp only [processArtifact, hns1, hft, hsdk, hpatch]

/-- Manifest root with no `uses-sdk` child, for the C6 witness. -/
def rootC6 : Element := .mk "" "manifest" 1 [] []

def mC6 : XmlResource := ⟨some rootC6⟩

def apkC6 : LoadedApk := ⟨"app.apk", ⟨["res"]⟩, some mC6⟩

def artC6 : Artifact := ⟨some "c6.apk", none, none, none, some "v21"⟩

def cfgC6 : PostProcessingConfiguration :=
  ⟨[artC6], none, [], [], [], [("v21", ⟨some 21⟩)]⟩

def optsC6 : MultiApkGeneratorOptions := ⟨"out", cfgC6⟩

def s0C6 : RunState := ⟨apkC6, [], []⟩

theorem c6_missing_uses_sdk_not_an_error_witness :
    (nameStage extT cfgC6 "app.apk" artC6 s0C6).1 = .ok "c6.apk" ∧
    FilterTable ctxT extT artC6 cfgC6 s0C6.apk.table s0C6.diags = (some ⟨["res"]⟩, [], []) ∧
    GetAndroidSdk artC6 cfgC6 [] = (some ⟨some 21⟩, []) ∧
    s0C6.apk.manifest = some mC6 ∧ mC6.root = some rootC6 ∧
    rootC6.namespace_uri = "" ∧ rootC6.name = "manifest" ∧
    rootC6.FindChild "" "uses-sdk" = none ∧
    (patchStage (some ⟨some 21⟩) { s0C6 with diags := ([] : List DiagMessage) } =
      (.ok (some mC6), { s0C6 with diags := ([] : List DiagMessage) }) ∧
     processArtifact ctxT extT optsC6 "app.apk" artC6 s0C6 =
      writeStage ctxT extT optsC6 "c6.apk" ⟨["res"]⟩ [] (some mC6)
        { s0C6 with diags := ([] : List DiagMessage) }) :=
  ⟨rfl, rfl, rfl, rfl, rfl, rfl, rfl, rfl,
   c6_missing_uses_sdk_not_an_error ctxT extT optsC6 "app.apk" artC6 s0C6 "c6.apk"
     ⟨["res"]⟩ [] [] ⟨some 21⟩ mC6 rootC6 rfl rfl rfl rfl rfl rfl rfl rfl⟩

/-! ## Patch round-trip lemmas -/

theorem patchUsesSdkChild_namespace_uri (w : Int) (c : Element) :
    (patchUsesSdkChild w c).namespace_uri = c.namespace_uri := by
  cases c
  rfl

theorem patchUsesSdkChild_name (w : Int) (c : Element) :
    (patchUsesSdkChild w c).name = c.name := by
  cases c
  rfl

theorem patchUsesSdkChild_attributes (w : Int) (c : Element) :
    (patchUsesSdkChild w c).attributes =
      mapFirst (fun a => a.ns == kSchemaAndroid && a.name == "minSdkVersion")
        (fun a => { a with compiled_value := some w }) c.attributes := by
  cases c
  rfl

theorem patchMinSdk_children (el : Element) (w : Int) :
    (patchMinSdk el w).children =
      mapFirst (fun c => c.namespace_uri == "" && c.name == "uses-sdk")
        (patchUsesSdkChild w) el.children := by
  cases el
  rfl

/-- Rewriting the entry `find?` located, by a function that preserves the
predicate, leaves it the entry that `find?` locates afterwards. -/
theorem find?_mapFirst (p : α → Bool) (f : α → α) (l : List α) (x : α)
    (hx : l.find? p = some x) (hf : p (f x) = true) :
    (mapFirst p f l).find? p = some (f x) := by
  induction l with
  | nil => cases hx
  | cons y ys ih =>
    cases hy : p y with
    | true =>
      rw [List.find?_cons_of_pos _ hy] at hx
      injection hx with hx
      subst hx
      unfold mapFirst
      rw [if_pos hy, List.find?_cons_of_pos _ hf]
    | false =>
      rw [List.find?_cons_of_neg _ (by simp [hy])] at hx
      unfold mapFirst
      rw [if_neg (by simp [hy]), List.find?_cons_of_neg _ (by simp [hy])]
      exact ih hx

/-- C7: given a manifest whose `uses-sdk` element carries a min-SDK
attribute with compiled value V and an SDK group specifying minimum
version W, the patch step produces the patched artifact-private document
whose attribute's compiled value is W, while the run state — and with it
the base manifest, whose attribute still carries V — is returned
untouched. -/
theorem c7_sdk_patch_round_trip (sdk : AndroidSdk) (s : RunState)
    (m : XmlResource) (el u : Element) (attr : Attribute) (V W : Int)
    (hman : s.apk.manifest = some m)
    (hroot : m.root = some el)
    (hns : el.namespace_uri = "") (hnme : el.name = "manifest")
    (hch : el.FindChild "" "uses-sdk" = some u)
    (hattr : u.FindAttribute kSchemaAndroid "minSdkVersion" = some attr)
    (hv : attr.compiled_value = some V)
    (hw : sdk.min_sdk_version = some W) :
    patchStage (some sdk) s = (.ok (some (m.patch W)), s) ∧
    m.patch W = { m with root := some (patchMinSdk el W) } ∧
    (patchMinSdk el W).FindChild "" "uses-sdk" = some (patchUsesSdkChild W u) ∧
    (patchUsesSdkChild W u).FindAttribute kSchemaAndroid "minSdkVersion" =
      some { attr with compiled_value := some W } ∧
    ((patchStage (some sdk) s).2).apk.manifest = some m ∧
    attr.compiled_value = some V := by
  have hstage : patchStage (some sdk) s = (.ok (some (m.patch W)), s) := by
    simp [patchStage, hman, hroot, hns, hnme, hch, hattr, hw]
  have hpm : m.patch W = { m with root := some (patchMinSdk el W) } := by
    simp [XmlResource.patch, hroot]
  have hchild : (patchMinSdk el W).FindChild "" "uses-sdk" =
      some (patchUsesSdkChild W u) := by
    have hx : el.children.find?
        (fun c => c.namespace_uri == "" && c.name == "uses-sdk") = some u := hch
    have hpu : (fun c : Element => c.namespace_uri == "" && c.name == "uses-sdk")
        (patchUsesSdkChild W u) = true := by
      have hu := List.find?_some hx
      simp only [patchUsesSdkChild_namespace_uri, patchUsesSdkChild_name]
      exact hu
    simp only [Element.FindChild, patchMinSdk_children]
    exact find?_mapFirst _ _ el.children u hx hpu
  have hattr2 : (patchUsesSdkChild W u).FindAttribute kSchemaAndroid "minSdkVersion" =
      some { attr with compiled_value := some W } := by
    have hx : u.attributes.find?
        (fun a => a.ns == kSchemaAndroid && a.name == "minSdkVersion") = some attr := hattr
    have hq0 := List.find?_some hx
    have hq : (fun a : Attribute => a.ns == kSchemaAndroid && a.name == "minSdkVersion")
        ({ attr with compiled_value := some W }) = true := hq0
    simp only [Element.FindAttribute, patchUsesSdkChild_attributes]
    exact find?_mapFirst _ _ u.attributes attr hx hq
  exact ⟨hstage, hpm, hchild, hattr2, by rw [hstage]; exact hman, hv⟩

/-- An SDK group carrying minimum version 21, for the C7 witness. -/
def sdk21 : AndroidSdk := ⟨some 21⟩

def mC9 : XmlResource := ⟨some rootC9⟩

def s0C7 : RunState := ⟨apkC9, [], []⟩

theorem c7_sdk_patch_round_trip_witness :
    s0C7.apk.manifest = some mC9 ∧ mC9.root = some rootC9 ∧
    rootC9.namespace_uri = "" ∧ rootC9.name = "manifest" ∧
    rootC9.FindChild "" "uses-sdk" = some usesSdkWithAttr ∧
    usesSdkWithAttr.FindAttribute kSchemaAndroid "minSdkVersion" = some attrV ∧
    attrV.compiled_value = some 19 ∧ sdk21.min_sdk_version = some 21 ∧
    (patchStage (some sdk21) s0C7 = (.ok (some (mC9.patch 21)), s0C7) ∧
     mC9.patch 21 = { mC9 with root := some (patchMinSdk rootC9 21) } ∧
     (patchMinSdk rootC9 21).FindChild "" "uses-sdk" =
       some (patchUsesSdkChild 21 usesSdkWithAttr) ∧
     (patchUsesSdkChild 21 usesSdkWithAttr).FindAttribute kSchemaAndroid "minSdkVersion" =
       some { attrV with compiled_value := some 21 } ∧
     ((patchStage (some sdk21) s0C7).2).apk.manifest = some mC9 ∧
     attrV.compiled_value = some 19) :=
  ⟨rfl, rfl, rfl, rfl, rfl, rfl, rfl, rfl,
   c7_sdk_patch_round_trip sdk21 s0C7 mC9 rootC9 usesSdkWithAttr attrV 19 21
     rfl rfl rfl rfl rfl rfl rfl rfl⟩

/-- C8: a failure to create the output directory adds exactly one warning
to the diagnostics and nothing else (for a non-verbose context); the write
stage still runs, and its outcome is decided solely by the archive write —
success when the write succeeds, failure only when the write itself
fails. -/
theorem c8_outdir_failure_is_warning_only (ctx : IAaptContext) (ext : Externals)
    (opts : MultiApkGeneratorOptions) (nm : String) (t : ResourceTable)
    (fl : FilterChain) (mf : Option XmlResource) (s : RunState)
    (hverb : ctx.verbose = false)
    (hmk : ext.mkdirs opts.out_dir = false) :
    ((writeStage ctx ext opts nm t fl mf s).2).diags =
      s.diags ++ [⟨.warn, "could not create out dir: " ++ opts.out_dir⟩] ∧
    ((writeStage ctx ext opts nm t fl mf s).1 = .ok () ↔
      ext.writeToArchive ctx t fl mf (appendPath opts.out_dir nm) = true) ∧
    ((writeStage ctx ext opts nm t fl mf s).1 = .fail .returnedFalse ↔
      ext.writeToArchive ctx t fl mf (appendPath opts.out_dir nm) = false) := by
  cases hw : ext.writeToArchive ctx t fl mf (appendPath opts.out_dir nm) with
  | true => simp [writeStage, hmk, hverb, hw, RunState.push]
  | false => simp [writeStage, hmk, hverb, hw, RunState.push]

/-- Externals whose output-directory creation fails, for the C8 witness. -/
def extC8 : Externals := { extT with mkdirs := fun _ => false }

theorem c8_outdir_failure_is_warning_only_witness :
    ctxT.verbose = false ∧ extC8.mkdirs "out" = false ∧
    (((writeStage ctxT extC8 optsC2 "w.apk" ⟨["res"]⟩ [] none s0C2).2).diags =
      s0C2.diags ++ [⟨.warn, "could not create out dir: " ++ "out"⟩] ∧
     ((writeStage ctxT extC8 optsC2 "w.apk" ⟨["res"]⟩ [] none s0C2).1 = .ok () ↔
      extC8.writeToArchive ctxT ⟨["res"]⟩ [] none (appendPath "out" "w.apk") = true) ∧
     ((writeStage ctxT extC8 optsC2 "w.apk" ⟨["res"]⟩ [] none s0C2).1 = .fail .returnedFalse ↔
      extC8.writeToArchive ctxT ⟨["res"]⟩ [] none (appendPath "out" "w.apk") = false)) :=
  ⟨rfl, rfl,
   c8_outdir_failure_is_warning_only ctxT extC8 optsC2 "w.apk" ⟨["res"]⟩ [] none s0C2 rfl rfl⟩

/-- A well-formed artifact that succeeds under the benign externals. -/
def artOk : Artifact := ⟨some "ok.apk", none, none, none, none⟩

/-- An artifact whose ABI group reference dangles, failing its iteration. -/
def artBad : Artifact := ⟨some "bad.apk", some "missing-abi", none, none, none⟩

def cfgC3 : PostProcessingConfiguration :=
  ⟨[artOk, artBad, artOk], none, [], [], [], []⟩

def optsC3 : MultiApkGeneratorOptions := ⟨"out", cfgC3⟩

def s0C3 : RunState := ⟨apkC1, [], []⟩

theorem c3_fail_fast_in_declaration_order_witness :
    optsC3.config.artifacts = [artOk] ++ artBad :: [artOk] ∧
    (FromBaseApkLoop ctxT extT optsC3 (extT.getFilename s0C3.apk.path) [artOk] s0C3).1 = .ok () ∧
    (processArtifact ctxT extT optsC3 (extT.getFilename s0C3.apk.path) artBad
      (FromBaseApkLoop ctxT extT optsC3 (extT.getFilename s0C3.apk.path) [artOk] s0C3).2).1 =
      .fail .returnedFalse ∧
    (FromBaseApk ctxT extT optsC3 s0C3 =
      (.fail .returnedFalse,
       (processArtifact ctxT extT optsC3 (extT.getFilename s0C3.apk.path) artBad
         (FromBaseApkLoop ctxT extT optsC3 (extT.getFilename s0C3.apk.path) [artOk] s0C3).2).2) ∧
     ∃ extra,
      (processArtifact ctxT extT optsC3 (extT.getFilename s0C3.apk.path) artBad
        (FromBaseApkLoop ctxT extT optsC3 (extT.getFilename s0C3.apk.path) [artOk] s0C3).2).2.written =
      (FromBaseApkLoop ctxT extT optsC3 (extT.getFilename s0C3.apk.path) [artOk] s0C3).2.written ++ extra) :=
  ⟨rfl, rfl, rfl,
   c3_fail_fast_in_declaration_order ctxT extT optsC3 s0C3 [artOk] [artOk] artBad
     .returnedFalse rfl rfl rfl⟩

end MultiApk
